import Mathlib

/-!
# Shallow embedding of the coffee-shop backend

This file embeds the request-handling pipeline of the coffee-shop backend
(an Express/Mongoose application) as executable Lean definitions and proves
properties of the embedded code.

Embedding conventions:
* A MongoDB collection is a `List` of documents in insertion order.
* JS values arriving in a request body are `Option`-typed fields (a missing
  key is `none`); JS truthiness is modelled explicitly (`""` and `0` are
  falsy).
* Prices and stock counts are JS numbers; the claims only need integer
  arithmetic, so they are modelled as `Int`.
* External collaborators (bcrypt, jsonwebtoken, Joi's URI grammar, multer)
  are modelled at their interface: bcrypt digests are a constructor that
  records what was hashed, JWT verification is a caller-supplied function
  from token strings to decoded payloads, the URI well-formedness test is a
  caller-supplied predicate, and an upload is the `Option`al path of the
  stored file.
-/

namespace CoffeeShop

/-- Product document, from `models/product.js`: name/description/price/category
required, stock and imageUrl optional in the schema.  `id` is the
persistence-assigned identifier (`_id`). -/
structure Product where
  id : Nat
  name : String
  description : String
  price : Int
  category : String
  stock : Int
  imageUrl : String
deriving DecidableEq, Repr

/-- A mutating-request body as seen by the product routes: each field is
present (`some`) or absent (`none`), mirroring JS `undefined`. -/
structure Body where
  name : Option String
  description : Option String
  price : Option Int
  category : Option String
  stock : Option Int
  imageUrl : Option String
deriving DecidableEq, Repr

/-- Joi `string().required()`: the key must be present and (Joi default)
the string must be non-empty.  Returns the error message of the first
violation, `none` when the field passes. -/
def checkRequiredString (field : String) (v : Option String) : Option String :=
  match v with
  | none => some (field ++ " is required")
  | some s => if s = "" then some (field ++ " is not allowed to be empty") else none

/-- Joi `number().required()`: the key must be present and numeric. -/
def checkRequiredNumber (field : String) (v : Option Int) : Option String :=
  match v with
  | none => some (field ++ " is required")
  | some _ => none

/-- Model of `validateProduct` from `middleware/validate.js` (README lines
838-856): a Joi object schema with `name`, `description`, `price`,
`category`, `stock` all required and `imageUrl` an optional URI.  Joi
aborts at the first violation in declaration order; the result is
`some message` (the handler responds 400 with that message) or `none`
(control passes to the route handler).  `isUri` stands for Joi's RFC-3986
URI grammar, an external library detail. -/
def validateProduct (isUri : String → Bool) (b : Body) : Option String :=
  match checkRequiredString "name" b.name with
  | some m => some m
  | none =>
  match checkRequiredString "description" b.description with
  | some m => some m
  | none =>
  match checkRequiredNumber "price" b.price with
  | some m => some m
  | none =>
  match checkRequiredString "category" b.category with
  | some m => some m
  | none =>
  match checkRequiredNumber "stock" b.stock with
  | some m => some m
  | none =>
  match b.imageUrl with
  | none => none
  | some u => if isUri u then none else some "imageUrl must be a valid uri"

/-- Mongoose `Product.findById`: first document whose `_id` matches, else `none`. -/
def findById (db : List Product) (id : Nat) : Option Product :=
  db.find? fun p => p.id = id

/-- Mongoose `Product.findByIdAndUpdate`: replace the fields of the matching document
(the identifier is preserved by the caller's update object). -/
def updateById (db : List Product) (id : Nat) (u : Product) : List Product :=
  db.map fun p => if p.id = id then u else p

/-- JS `a || b` on strings: `""` is falsy. -/
def jsOrStr (a b : String) : String :=
  if a = "" then b else a

/-- JS `a || b` on numbers: `0` is falsy. -/
def jsOrInt (a b : Int) : Int :=
  if a = 0 then b else a

/-- The update object built by the PUT handler (`routes/products.js` lines
120-134): `name: name || existingProduct.name`, ..., and `imageUrl` taken
from the uploaded file when present, else the stored value (body `imageUrl`
is ignored).  A body field that is absent (JS `undefined`) or falsy falls
back to the stored value. -/
def mergeUpdate (existing : Product) (b : Body) (file : Option String) : Product :=
  { id := existing.id
    name := jsOrStr (b.name.getD "") existing.name
    description := jsOrStr (b.description.getD "") existing.description
    price := jsOrInt (b.price.getD 0) existing.price
    category := jsOrStr (b.category.getD "") existing.category
    stock := jsOrInt (b.stock.getD 0) existing.stock
    imageUrl := file.getD existing.imageUrl }

/-- Response of `PUT /products/:id` after the auth/role gates. -/
inductive PutResponse
  | validationError (msg : String)
  | notFound
  | ok (p : Product)
deriving DecidableEq, Repr

/-- HTTP status of each PUT outcome (400 / 404 / 200). -/
def PutResponse.statusCode : PutResponse → Nat
  | .validationError _ => 400
  | .notFound => 404
  | .ok _ => 200

/-- Handler chain of `PUT /products/:id` (`routes/products.js` lines 97-150), composed with
the `validateProduct` middleware that runs before the handler.  `file` is
`req.file.path` from `upload.single("image")` when a file was uploaded.
Returns the response and the collection after the request. -/
def putProduct (isUri : String → Bool) (db : List Product) (id : Nat)
    (file : Option String) (b : Body) : PutResponse × List Product :=
  match validateProduct isUri b with
  | some msg => (.validationError msg, db)
  | none =>
    match findById db id with
    | none => (.notFound, db)
    | some existing =>
      let updated := mergeUpdate existing b file
      (.ok updated, updateById db id updated)

/-- Response of `POST /products` after the auth/role gates. -/
inductive PostResponse
  | validationError (msg : String)
  | uploadFailed
  | created (p : Product)
deriving DecidableEq, Repr

/-- HTTP status of each POST outcome (400 / 400 / 201). -/
def PostResponse.statusCode : PostResponse → Nat
  | .validationError _ => 400
  | .uploadFailed => 400
  | .created _ => 201

/-- Handler chain of `POST /products` (`routes/products.js` lines 10-44), composed with the
`validateProduct` middleware.  The handler first rejects with 400
("File upload failed") when `req.file` is absent; otherwise it persists a
new product whose `imageUrl` is `req.file.path` and responds 201 with it.
`nextId` is the identifier the store assigns to the new document. -/
def postProduct (isUri : String → Bool) (db : List Product) (nextId : Nat)
    (file : Option String) (b : Body) : PostResponse × List Product :=
  match validateProduct isUri b with
  | some msg => (.validationError msg, db)
  | none =>
    match file with
    | none => (.uploadFailed, db)
    | some path =>
      let p : Product :=
        { id := nextId
          name := b.name.getD ""
          description := b.description.getD ""
          price := b.price.getD 0
          category := b.category.getD ""
          stock := b.stock.getD 0
          imageUrl := path }
      (.created p, db ++ [p])

/-- A BSON field value reachable from a product document: MongoDB compares
numbers before strings in its type bracket order. -/
inductive BsonVal
  | num (n : Int)
  | str (s : String)
deriving DecidableEq, Repr

/-- Dynamic field access used by `sort({ [sortBy]: ... })`: an unknown field
name is missing (`none`) on every document. -/
def fieldOf (p : Product) : String → Option BsonVal
  | "name" => some (.str p.name)
  | "description" => some (.str p.description)
  | "price" => some (.num p.price)
  | "category" => some (.str p.category)
  | "stock" => some (.num p.stock)
  | "imageUrl" => some (.str p.imageUrl)
  | _ => none

/-- Code-point-wise lexicographic order on character lists (MongoDB's simple
binary collation). -/
def charListLe : List Char → List Char → Bool
  | [], _ => true
  | _ :: _, [] => false
  | a :: as, b :: bs =>
    if a.val < b.val then true
    else if b.val < a.val then false
    else charListLe as bs

/-- String comparison for sorting. -/
def strLe (a b : String) : Bool :=
  charListLe a.toList b.toList

/-- BSON comparison: missing < numbers < strings, numbers by value, strings
binary-lexicographically. -/
def bsonLe : Option BsonVal → Option BsonVal → Bool
  | none, _ => true
  | some _, none => false
  | some (.num a), some (.num b) => a ≤ b
  | some (.num _), some (.str _) => true
  | some (.str _), some (.num _) => false
  | some (.str a), some (.str b) => strLe a b

/-- Stable insertion of `x` before the first element it compares `le` to. -/
def insertLe (le : Product → Product → Bool) (x : Product) : List Product → List Product
  | [] => [x]
  | y :: ys => if le x y then x :: y :: ys else y :: insertLe le x ys

/-- Stable sort by a boolean total preorder (models the store's sort; the
relative order of documents with equal keys follows insertion order). -/
def sortLe (le : Product → Product → Bool) : List Product → List Product
  | [] => []
  | x :: xs => insertLe le x (sortLe le xs)

/-- The sort stage built by the GET handler: no `sortBy` means natural
(insertion) order; otherwise ascending on the named field when
`sortOrder === "asc"`, descending for any other value (the handler maps
`sortOrder` to `1` or `-1` with a two-way conditional). -/
def applySort (sortBy : Option String) (sortOrder : String) (l : List Product) : List Product :=
  match sortBy with
  | none => l
  | some f =>
    if sortOrder = "asc" then sortLe (fun a b => bsonLe (fieldOf a f) (fieldOf b f)) l
    else sortLe (fun a b => bsonLe (fieldOf b f) (fieldOf a f)) l

/-- The category filter: match-all when `category` is absent, exact match
otherwise (`const filter = category ? { category } : {}`). -/
def matchesCategory (category : Option String) (p : Product) : Bool :=
  match category with
  | none => true
  | some c => p.category = c

/-- MongoDB cursor limit: `limit(0)` means "no limit". -/
def applyLimit (n : Nat) (l : List Product) : List Product :=
  if n = 0 then l else l.take n

/-- Query parameters of `GET /products`; absent parameters default inside
the handler (`page = 1`, `limit = 10`, `sortOrder = "asc"`). -/
structure GetQuery where
  page : Option Nat
  limit : Option Nat
  category : Option String
  sortBy : Option String
  sortOrder : Option String
deriving DecidableEq, Repr

/-- Response body of `GET /products`: `{ total, products }`. -/
structure GetAllResponse where
  total : Nat
  products : List Product
deriving DecidableEq, Repr

/-- Handler of `GET /products` (`routes/products.js` lines 47-77).  The handler builds
the category filter and the sort specifier, then runs
`find(filter).sort(sort).limit(limit).skip((page-1)*limit)`; `limit` and
`skip` are cursor options, and the store applies sort, then skip, then
limit, with `limit(0)` meaning unlimited.  `total` is
`countDocuments(filter)`, independent of pagination. -/
def getProducts (db : List Product) (q : GetQuery) : GetAllResponse :=
  let page := q.page.getD 1
  let limit := q.limit.getD 10
  let sortOrder := q.sortOrder.getD "asc"
  let filtered := db.filter (matchesCategory q.category)
  let sorted := applySort q.sortBy sortOrder filtered
  let products := applyLimit limit (sorted.drop ((page - 1) * limit))
  { total := filtered.length, products := products }

/-- A value held in the `password` field.  `.plain s` is the submitted
credential; `.digest salt v` is `bcrypt.hash(v, salt)` — the constructor
records what was hashed, so hashing an already-hashed value is
representable (and provably never happens on save). -/
inductive PasswordValue
  | plain (s : String)
  | digest (salt : Nat) (v : PasswordValue)
deriving DecidableEq, Repr

/-- User document, from `models/user.js` (README lines 278-283): role is
enumerated over "user"/"admin" with default "user".  `passwordModified`
models Mongoose's `isModified("password")` dirty tracking: `true` on a
freshly constructed document or after an assignment to `password`, reset
once saved. -/
structure UserDoc where
  id : Nat
  name : String
  email : String
  password : PasswordValue
  role : String
  passwordModified : Bool
deriving DecidableEq, Repr

/-- The `userSchema.pre("save")` hook (README lines 286-298): when the
password path is unmodified the hook is a no-op; otherwise it replaces
`password` with `bcrypt.hash(password, salt)` for a freshly generated
random `salt` (passed in as a parameter, since the randomness is
external). -/
def preSaveHashPassword (salt : Nat) (u : UserDoc) : UserDoc :=
  if u.passwordModified then
    { u with password := .digest salt u.password, passwordModified := false }
  else u

/-- Mongoose enum validation on `role`. -/
def roleIsValid (r : String) : Bool :=
  r = "user" || r = "admin"

/-- Mongoose default: `role` falls back to "user" when the key is absent. -/
def resolveRole : Option String → String
  | none => "user"
  | some r => r

/-- Saving a new user (`user.save()`): the unique index on `email` rejects a
duplicate, schema validation rejects a role outside the enum, and otherwise
the pre-save hook runs and the document is appended to the collection.
Returns the persisted document alongside the new collection. -/
def saveNewUser (salt : Nat) (db : List UserDoc) (u : UserDoc) :
    Except String (List UserDoc × UserDoc) :=
  if db.any (fun v => v.email = u.email) then
    .error "duplicate key error: email"
  else if !roleIsValid u.role then
    .error "user validation failed: role"
  else
    let persisted := preSaveHashPassword salt u
    .ok (db ++ [persisted], persisted)

/-- Response of `POST /auth/register`. -/
inductive RegisterResponse
  | registered (status : Nat)
  | error (status : Nat) (msg : String)
deriving DecidableEq, Repr

/-- Handler of `POST /auth/register` (README lines 319-328): an unauthenticated route
(no `auth`/`role` middleware) that builds
`new User({ name, email, password, role })` straight from the request body
and saves it; any save error is surfaced as a 400, success as a 201.
`nextId` is the identifier the store assigns. -/
def register (salt : Nat) (db : List UserDoc) (nextId : Nat)
    (name email password : String) (role? : Option String) :
    RegisterResponse × List UserDoc :=
  let u : UserDoc :=
    { id := nextId
      name := name
      email := email
      password := .plain password
      role := resolveRole role?
      passwordModified := true }
  match saveNewUser salt db u with
  | .ok (db', _) => (.registered 201, db')
  | .error msg => (.error 400 msg, db)

/-- Model of `userSchema.methods.comparePassword` (README lines 301-303):
`bcrypt.compare(candidate, stored)` is true exactly when `stored` is a
bcrypt digest of `candidate`; a stored value that is not a digest matches
nothing. -/
def comparePassword (candidate : String) : PasswordValue → Bool
  | .digest _ v => v = .plain candidate
  | .plain _ => false

/-- Response of `POST /auth/login`: either an error or a signed token
carrying `{ userId, role }` with a one-hour expiry. -/
inductive LoginResponse
  | error (status : Nat) (msg : String)
  | token (userId : Nat) (role : String) (expiresInSeconds : Nat)
deriving DecidableEq, Repr

/-- Handler of `POST /auth/login` (README lines 334-354): look up by email; missing
user and failed hash comparison both answer 400
"Invalid email or password"; otherwise sign `{ userId, role }` with a 1h
expiry. -/
def login (db : List UserDoc) (email password : String) : LoginResponse :=
  match db.find? (fun u => u.email = email) with
  | none => .error 400 "Invalid email or password"
  | some u =>
    if comparePassword password u.password then
      .token u.id u.role 3600
    else
      .error 400 "Invalid email or password"

/-- Decoded JWT payload attached to `req.user`. -/
structure JwtPayload where
  userId : Nat
  role : String
deriving DecidableEq, Repr

/-- Does the first list start the second? -/
def charListStarts : List Char → List Char → Bool
  | [], _ => true
  | _ :: _, [] => false
  | a :: as, b :: bs => a = b && charListStarts as bs

/-- JS `String.prototype.replace` with a string pattern replaces only the
first occurrence (helper on character lists; the call site uses a non-empty
pattern). -/
def charListReplaceFirst (pat repl : List Char) : List Char → List Char
  | [] => []
  | c :: rest =>
    if charListStarts pat (c :: rest) then repl ++ (c :: rest).drop pat.length
    else c :: charListReplaceFirst pat repl rest

/-- Model of `header.replace("Bearer ", "")` as used by the auth middleware. -/
def replaceFirst (s pat repl : String) : String :=
  ⟨charListReplaceFirst pat.toList repl.toList s.toList⟩

/-- Outcome of the `auth` middleware. -/
inductive AuthResult
  | missingHeader
  | noToken
  | invalidToken
  | success (user : JwtPayload)
deriving DecidableEq, Repr

/-- HTTP status of each failing auth outcome; `none` when the middleware
calls `next()`. -/
def AuthResult.statusCode : AuthResult → Option Nat
  | .missingHeader => some 401
  | .noToken => some 401
  | .invalidToken => some 400
  | .success _ => none

/-- Middleware `auth` from `middleware/auth.js` (README lines 365-387).  Reading
`req.header("Authorization").replace(...)` throws when the header is absent
(caught as a 401); an empty token string is also a 401; then
`jwt.verify(token, JWT_SECRET)` — modelled by the caller-supplied `verify`,
which returns the decoded payload exactly for strings that are
correctly-signed unexpired tokens — either yields the payload attached to
`req.user` (control proceeds) or throws (caught as a 400).  The middleware
touches nothing but `req.user`. -/
def auth (verify : String → Option JwtPayload) (header : Option String) : AuthResult :=
  match header with
  | none => .missingHeader
  | some h =>
    let token := replaceFirst h "Bearer " ""
    if token = "" then .noToken
    else
      match verify token with
      | none => .invalidToken
      | some payload => .success payload

/-- Outcome of the `role` middleware. -/
inductive RoleResult
  | forbidden (status : Nat) (msg : String)
  | proceed
deriving DecidableEq, Repr

/-- Middleware factory `role(requiredRole)` from `middleware/role.js` (README lines 815-825):
`req.user.role !== requiredRole` answers 403 "Access denied.", otherwise
`next()`. -/
def role (requiredRole : String) (user : JwtPayload) : RoleResult :=
  if user.role ≠ requiredRole then .forbidden 403 "Access denied."
  else .proceed

/-! ## Concrete fixtures used by witnesses and counterexamples -/

/-- A URI predicate accepting everything (the Joi grammar instantiation is
irrelevant to the fixtures, whose bodies carry no `imageUrl`). -/
def anyUri : String → Bool := fun _ => true

/-- A stored product, as in the README's walkthrough. -/
def sampleProduct : Product :=
  ⟨1, "Coffee Mug", "A large coffee mug.", 13, "mugs", 100, "uploads/mug.png"⟩

/-- The spec's partial-update example body: `{ price: 5 }`. -/
def partialBody : Body := ⟨none, none, some 5, none, none, none⟩

/-- A body carrying every Joi-required field. -/
def fullBody : Body :=
  ⟨some "Latte Mug", some "A latte mug.", some 15, some "mugs", some 20, none⟩

/-- A body that is complete except for a negative price. -/
def negPriceBody : Body := ⟨some "Mug", some "d", some (-5), some "mugs", some 1, none⟩

/-- The same body with the price key removed. -/
def noPriceBody : Body := ⟨some "Mug", some "d", none, some "mugs", some 1, none⟩

/-- The product that `POST /products` persists from `negPriceBody`. -/
def negPriceProduct : Product := ⟨1, "Mug", "d", -5, "mugs", 1, "uploads/mug.png"⟩

/-- Three stored products for pagination fixtures. -/
def prodA : Product := ⟨1, "A", "dA", 5, "mugs", 1, "a.png"⟩

/-- Second pagination fixture (cheaper than `prodA`). -/
def prodB : Product := ⟨2, "B", "dB", 3, "mugs", 1, "b.png"⟩

/-- Third pagination fixture, in another category. -/
def prodC : Product := ⟨3, "C", "dC", 4, "tea", 1, "c.png"⟩

/-- A registered user whose stored password is a bcrypt digest of
"password123". -/
def sampleUser : UserDoc :=
  ⟨1, "John", "john@x.com", .digest 5 (.plain "password123"), "user", false⟩

/-- A JWT verifier recognising exactly one token string. -/
def verifyStub : String → Option JwtPayload :=
  fun t => if t = "tok123" then some ⟨1, "admin"⟩ else none

/-! ## Helper lemmas -/

/-- A body that passes `validateProduct` passes every per-field check. -/
theorem validate_none_split (isUri : String → Bool) (b : Body)
    (h : validateProduct isUri b = none) :
    checkRequiredString "name" b.name = none ∧
    checkRequiredString "description" b.description = none ∧
    checkRequiredNumber "price" b.price = none ∧
    checkRequiredString "category" b.category = none ∧
    checkRequiredNumber "stock" b.stock = none := by
  cases h1 : checkRequiredString "name" b.name with
  | some m => simp [validateProduct, h1] at h
  | none =>
  cases h2 : checkRequiredString "description" b.description with
  | some m => simp [validateProduct, h1, h2] at h
  | none =>
  cases h3 : checkRequiredNumber "price" b.price with
  | some m => simp [validateProduct, h1, h2, h3] at h
  | none =>
  cases h4 : checkRequiredString "category" b.category with
  | some m => simp [validateProduct, h1, h2, h3, h4] at h
  | none =>
  cases h5 : checkRequiredNumber "stock" b.stock with
  | some m => simp [validateProduct, h1, h2, h3, h4, h5] at h
  | none => exact ⟨rfl, rfl, rfl, rfl, rfl⟩


/-- A string field that passes its required-check is present and non-empty. -/
theorem checkRequiredString_some_ne (field nm : String)
    (h : checkRequiredString field (some nm) = none) : nm ≠ "" := by
  intro he
  rw [he] at h
  simp [checkRequiredString] at h

/-! ## C1: PUT merge-update -/

/-- C1 counterexample.  The claim says that for an existing product every
PUT request merge-updates (omitted fields retained) and returns the updated
record.  On the code, the `validateProduct` middleware requires name,
description, price, category and stock, so the spec's own example payload
`{ price: 5 }` is rejected with a 400 validation error before the merge
logic runs; no updated record is returned and the store is untouched. -/
theorem c1_put_partial_payload_counterexample :
    (putProduct anyUri [sampleProduct] 1 none partialBody).1
        = PutResponse.validationError "name is required" ∧
      (putProduct anyUri [sampleProduct] 1 none partialBody).1
        ≠ PutResponse.ok { sampleProduct with price := 5 } ∧
      (putProduct anyUri [sampleProduct] 1 none partialBody).2 = [sampleProduct] := by
  refine ⟨by decide, by decide, by decide⟩

/-- C1 (amended): a PUT body must first pass `validateProduct` (all of
name, description, price, category, stock present), so a partial payload is
rejected with a 400 validation error and the store is unchanged.  For a
body that passes validation, the handler returns NotFound when no record
matches the id; otherwise it performs the `||`-merge: provided truthy
fields overwrite (witnessed here for `name`), a missing upload keeps the
stored `imageUrl`, the store is updated at the matched id, and the updated
record is returned. -/
theorem c1_put_merge_update (isUri : String → Bool) (db : List Product) (id : Nat)
    (file : Option String) (b : Body)
    (hv : validateProduct isUri b = none) :
    (findById db id = none → putProduct isUri db id file b = (.notFound, db)) ∧
    (∀ p, findById db id = some p →
      putProduct isUri db id file b
          = (.ok (mergeUpdate p b file), updateById db id (mergeUpdate p b file)) ∧
        (file = none → (mergeUpdate p b file).imageUrl = p.imageUrl) ∧
        (∀ nm, b.name = some nm → (mergeUpdate p b file).name = nm)) := by
  constructor
  · intro hnone
    simp [putProduct, hv, hnone]
  · intro p hp
    refine ⟨?_, ?_, ?_⟩
    · simp [putProduct, hv, hp]
    · intro hf
      simp [mergeUpdate, hf]
    · intro nm hnm
      have h1 := (validate_none_split isUri b hv).1
      rw [hnm] at h1
      have hne := checkRequiredString_some_ne "name" nm h1
      simp [mergeUpdate, hnm, jsOrStr, hne]

/-- C1 witness: a full-body PUT against the stored sample product performs
the merge and keeps the stored image. -/
theorem c1_witness :
    putProduct anyUri [sampleProduct] 1 none fullBody
        = (.ok (mergeUpdate sampleProduct fullBody none),
            updateById [sampleProduct] 1 (mergeUpdate sampleProduct fullBody none)) ∧
      (mergeUpdate sampleProduct fullBody none).imageUrl = sampleProduct.imageUrl := by
  have h := (c1_put_merge_update anyUri [sampleProduct] 1 none fullBody (by decide)).2
      sampleProduct (by decide)
  exact ⟨h.1, h.2.1 rfl⟩

/-! ## C2: GET /products pagination pipeline -/

/-- C2: for the documented parameter domain (positive page and limit,
including the defaults 1 and 10), `GET /products` filters by exact
category (match-all when absent), sorts ascending or descending on the
named field (insertion order when `sortBy` is absent, ascending by
default), returns the slice skipping `(page-1)*limit` documents and taking
`limit`, and reports `total` as the count of all filter-matching documents,
uncapped by pagination. -/
theorem c2_get_products_pagination (db : List Product)
    (category sortBy sortOrder : Option String) (page? limit? : Option Nat)
    (hp : 1 ≤ page?.getD 1) (hl : 1 ≤ limit?.getD 10) :
    getProducts db ⟨page?, limit?, category, sortBy, sortOrder⟩
      = { total := (db.filter (matchesCategory category)).length,
          products :=
            ((applySort sortBy (sortOrder.getD "asc")
                (db.filter (matchesCategory category))).drop
              ((page?.getD 1 - 1) * limit?.getD 10)).take (limit?.getD 10) } := by
  have hne : limit?.getD 10 ≠ 0 := by omega
  simp [getProducts, applyLimit, hne]

/-- C2 witness: page 2 with limit 1 over the "mugs" category sorted by
price returns the dearer mug and the uncapped total 2. -/
theorem c2_witness :
    getProducts [prodA, prodB, prodC] ⟨some 2, some 1, some "mugs", some "price", none⟩
      = { total := 2, products := [prodA] } := by
  rw [c2_get_products_pagination [prodA, prodB, prodC] (some "mugs") (some "price")
      none (some 2) (some 1) (by decide) (by decide)]
  decide

/-! ## C3: stored passwords are salted digests -/

/-- C3: a registration that persists stores a bcrypt digest of the
submitted password (with the freshly generated salt), never the plaintext,
and the pre-save hook does not hash again on a later save of the persisted,
unmodified record (for any later salt). -/
theorem c3_password_hashed_on_register (salt salt2 : Nat) (db : List UserDoc)
    (nextId : Nat) (name email password : String) (role? : Option String)
    (hdup : db.any (fun v => v.email = email) = false)
    (hrole : roleIsValid (resolveRole role?) = true) :
    ∃ u : UserDoc,
      register salt db nextId name email password role? = (.registered 201, db ++ [u]) ∧
      u.password = .digest salt (.plain password) ∧
      (∀ s, u.password ≠ .plain s) ∧
      preSaveHashPassword salt2 u = u := by
  refine ⟨{ id := nextId, name := name, email := email,
            password := .digest salt (.plain password), role := resolveRole role?,
            passwordModified := false }, ?_, rfl, ?_, ?_⟩
  · simp [register, saveNewUser, hdup, hrole, preSaveHashPassword]
  · intro s h
    exact PasswordValue.noConfusion h
  · simp [preSaveHashPassword]

/-- C3 witness at a concrete registration. -/
theorem c3_witness :
    ∃ u : UserDoc,
      register 7 [] 1 "A" "a@x.com" "pw" none = (.registered 201, [] ++ [u]) ∧
      u.password = .digest 7 (.plain "pw") ∧
      (∀ s, u.password ≠ .plain s) ∧
      preSaveHashPassword 9 u = u :=
  c3_password_hashed_on_register 7 9 [] 1 "A" "a@x.com" "pw" none (by decide) (by decide)

/-! ## C4: exact-match role gate -/

/-- C4: the `role(requiredRole)` gate lets a request proceed exactly when
the authenticated role is string-equal to the required role; any mismatch
is a 403 "Access denied." with no partial or hierarchical matching. -/
theorem c4_role_exact_match (requiredRole : String) (user : JwtPayload) :
    (role requiredRole user = .proceed ↔ user.role = requiredRole) ∧
    (user.role ≠ requiredRole →
      role requiredRole user = .forbidden 403 "Access denied.") := by
  refine ⟨⟨?_, ?_⟩, ?_⟩
  · intro h
    by_contra hne
    simp [role, hne] at h
  · intro h
    simp [role, h]
  · intro h
    simp [role, h]

/-- C4 witness: role "user" is rejected at an admin gate and role "admin"
passes it. -/
theorem c4_witness :
    role "admin" ⟨1, "user"⟩ = .forbidden 403 "Access denied." ∧
    role "admin" ⟨2, "admin"⟩ = .proceed :=
  ⟨(c4_role_exact_match "admin" ⟨1, "user"⟩).2 (by decide),
   (c4_role_exact_match "admin" ⟨2, "admin"⟩).1.mpr rfl⟩

/-! ## C5: authentication gate -/

/-- C5: the `auth` middleware answers 401 when the Authorization header is
absent; when the header is present and carries a non-empty token whose
verification against the server secret fails (bad signature or expired),
it answers 400; and when verification succeeds it attaches the decoded
payload (user id and role) to the request context and proceeds, its only
effect. -/
theorem c5_auth_gate (verify : String → Option JwtPayload) (h : String) :
    auth verify none = .missingHeader ∧
    (auth verify none).statusCode = some 401 ∧
    (replaceFirst h "Bearer " "" ≠ "" →
      verify (replaceFirst h "Bearer " "") = none →
        auth verify (some h) = .invalidToken ∧
        (auth verify (some h)).statusCode = some 400) ∧
    (∀ q, replaceFirst h "Bearer " "" ≠ "" →
      verify (replaceFirst h "Bearer " "") = some q →
        auth verify (some h) = .success q) := by
    refine ⟨rfl, rfl, ?_, ?_⟩
    · intro ht hv
      constructor <;> simp [auth, AuthResult.statusCode, ht, hv]
    · intro q ht hv
      simp [auth, ht, hv]

/-- C5 witness: a stubbed verifier accepts its one good token and rejects a
bad one. -/
theorem c5_witness :
    auth verifyStub (some "Bearer tok123") = .success ⟨1, "admin"⟩ ∧
    auth verifyStub (some "Bearer badtok") = .invalidToken :=
  ⟨(c5_auth_gate verifyStub "Bearer tok123").2.2.2 ⟨1, "admin"⟩
      (by decide) (by decide),
   ((c5_auth_gate verifyStub "Bearer badtok").2.2.1
      (by decide) (by decide)).1⟩

/-! ## C6: login failures are indistinguishable -/

/-- C6: a login for an email with no account and a login for an existing
account with a failing password comparison produce the same response —
status 400 with the generic message — so a caller cannot enumerate
accounts. -/
theorem c6_login_indistinguishable (db : List UserDoc) (e1 p1 e2 p2 : String)
    (u : UserDoc)
    (h1 : db.find? (fun v => v.email = e1) = none)
    (h2 : db.find? (fun v => v.email = e2) = some u)
    (h3 : comparePassword p2 u.password = false) :
    login db e1 p1 = login db e2 p2 ∧
    login db e1 p1 = .error 400 "Invalid email or password" := by
  have ha : login db e1 p1 = .error 400 "Invalid email or password" := by
    simp [login, h1]
  have hb : login db e2 p2 = .error 400 "Invalid email or password" := by
    simp [login, h2, h3]
  exact ⟨ha.trans hb.symm, ha⟩

/-- C6 witness: a nonexistent email and a wrong password against the stored
user answer identically. -/
theorem c6_witness :
    login [sampleUser] "nobody@x.com" "pw" = login [sampleUser] "john@x.com" "wrong" ∧
    login [sampleUser] "nobody@x.com" "pw" = .error 400 "Invalid email or password" :=
  c6_login_indistinguishable [sampleUser] "nobody@x.com" "pw" "john@x.com" "wrong"
    sampleUser (by decide) (by decide) (by decide)

/-! ## C7: image required on create, optional on update -/

/-- C7: `POST /products` with no uploaded file answers a 400 and leaves the
collection unchanged, whatever the body; `PUT /products/:id` with no
uploaded file is not failed for that reason — for a validated body against
an existing record it succeeds and the updated record keeps the stored
`imageUrl`. -/
theorem c7_upload_required_on_create_optional_on_update
    (isUri : String → Bool) (db : List Product) (nextId : Nat) (b : Body)
    (id : Nat) (p : Product) :
    ((postProduct isUri db nextId none b).1.statusCode = 400 ∧
      (postProduct isUri db nextId none b).2 = db) ∧
    (validateProduct isUri b = none → findById db id = some p →
      ∃ u, putProduct isUri db id none b = (.ok u, updateById db id u) ∧
        u.imageUrl = p.imageUrl) := by
  constructor
  · cases hv : validateProduct isUri b with
    | none => constructor <;> simp [postProduct, PostResponse.statusCode, hv]
    | some m => constructor <;> simp [postProduct, PostResponse.statusCode, hv]
  · intro hv hp
    refine ⟨mergeUpdate p b none, ?_, ?_⟩
    · simp [putProduct, hv, hp]
    · simp [mergeUpdate]

/-- C7 witness: concrete create-without-file rejection and
update-without-file image preservation. -/
theorem c7_witness :
    ((postProduct anyUri [sampleProduct] 2 none fullBody).1.statusCode = 400 ∧
      (postProduct anyUri [sampleProduct] 2 none fullBody).2 = [sampleProduct]) ∧
    (∃ u, putProduct anyUri [sampleProduct] 1 none fullBody
        = (.ok u, updateById [sampleProduct] 1 u) ∧
      u.imageUrl = sampleProduct.imageUrl) :=
  ⟨(c7_upload_required_on_create_optional_on_update anyUri [sampleProduct] 2 fullBody
      1 sampleProduct).1,
   (c7_upload_required_on_create_optional_on_update anyUri [sampleProduct] 2 fullBody
      1 sampleProduct).2 (by decide) (by decide)⟩

/-! ## C8: limit = 0 is not coerced -/

/-- C8 counterexample.  The claim says `limit = 0` is coerced to some
positive minimum before pagination.  No positive limit reproduces the
code's behaviour: for every candidate minimum `m ≥ 1` the store of `m + 1`
identical products distinguishes the two queries, because the handler
passes `0` through and MongoDB's `limit(0)` means "no limit", returning all
`m + 1` documents where a positive limit `m` returns `m`. -/
theorem c8_no_limit_coercion_counterexample :
    ¬ ∃ m, 1 ≤ m ∧ ∀ db : List Product,
        getProducts db ⟨none, some 0, none, none, none⟩
          = getProducts db ⟨none, some m, none, none, none⟩ := by
  rintro ⟨m, hm, h⟩
  have hd := h (List.replicate (m + 1) sampleProduct)
  have hlen := congrArg (fun r => r.products.length) hd
  have hne : m ≠ 0 := by omega
  simp [getProducts, applySort, applyLimit, matchesCategory, hne] at hlen

/-- C8 (amended): the handler performs no coercion: with `limit = 0` the
skip `(page-1)*limit` is `0` and the store's `limit(0)` means no limit, so
the response carries every document matching the category filter, in
sorted order, for any page. -/
theorem c8_limit_zero_returns_all (db : List Product) (page? : Option Nat)
    (category sortBy sortOrder : Option String) :
    getProducts db ⟨page?, some 0, category, sortBy, sortOrder⟩
      = { total := (db.filter (matchesCategory category)).length,
          products := applySort sortBy (sortOrder.getD "asc")
            (db.filter (matchesCategory category)) } := by
  simp [getProducts, applyLimit]

/-! ## C9: price is not checked for sign -/

/-- C9 counterexample.  The claim says a negative price is rejected by the
validator before persistence.  The Joi schema only requires `price` to be a
number: the body with price −5 passes validation and `POST /products`
persists it unchanged. -/
theorem c9_negative_price_counterexample :
    validateProduct anyUri negPriceBody = none ∧
    postProduct anyUri [] 1 (some "uploads/mug.png") negPriceBody
      = (.created negPriceProduct, [negPriceProduct]) ∧
    negPriceProduct.price < 0 := by
  refine ⟨by decide, by decide, by decide⟩

/-- C9 (amended): `price` is required — a body without it is rejected with
a validation error before any persistence access — but its sign is not
checked: the same body completed with any negative price passes validation
and is persisted with that price. -/
theorem c9_price_required_but_sign_unchecked (isUri : String → Bool) (b : Body)
    (db : List Product) (nextId : Nat) (path : String) (pr : Int)
    (hmiss : b.price = none) (hneg : pr < 0)
    (hv : validateProduct isUri { b with price := some pr } = none) :
    (∃ m, validateProduct isUri b = some m) ∧
    (∃ p, postProduct isUri db nextId (some path) { b with price := some pr }
        = (.created p, db ++ [p]) ∧ p.price = pr) := by
  constructor
  · cases hv0 : validateProduct isUri b with
    | some m => exact ⟨m, rfl⟩
    | none =>
      have hprice := (validate_none_split isUri b hv0).2.2.1
      rw [hmiss] at hprice
      simp [checkRequiredNumber] at hprice
  · refine ⟨{ id := nextId, name := b.name.getD "", description := b.description.getD "",
              price := pr, category := b.category.getD "", stock := b.stock.getD 0,
              imageUrl := path }, ?_, rfl⟩
    simp [postProduct, hv]

/-- C9 witness for the amended statement at the concrete fixture body. -/
theorem c9_witness :
    (∃ m, validateProduct anyUri noPriceBody = some m) ∧
    (∃ p, postProduct anyUri [] 1 (some "uploads/mug.png")
        { noPriceBody with price := some (-5) }
        = (.created p, [] ++ [p]) ∧ p.price = -5) :=
  c9_price_required_but_sign_unchecked anyUri noPriceBody [] 1 "uploads/mug.png" (-5)
    rfl (by decide) (by decide)

/-! ## C10: self-service admin registration -/

/-- C10: the unauthenticated registration route persists a caller-chosen
role verbatim when it is in the schema enum — in particular "admin" — and
defaults to "user" when absent; a token minted for the stored identity then
passes the exact-match admin gate. -/
theorem c10_unauthenticated_admin_registration (salt : Nat) (db : List UserDoc)
    (nextId : Nat) (name email password : String)
    (hdup : db.any (fun v => v.email = email) = false) :
    (∃ u, register salt db nextId name email password (some "admin")
        = (.registered 201, db ++ [u]) ∧
      u.role = "admin" ∧
      role "admin" ⟨u.id, u.role⟩ = .proceed) ∧
    (∃ u, register salt db nextId name email password none
        = (.registered 201, db ++ [u]) ∧
      u.role = "user") := by
  constructor
  · refine ⟨{ id := nextId, name := name, email := email,
              password := .digest salt (.plain password), role := "admin",
              passwordModified := false }, ?_, rfl, ?_⟩
    · simp [register, saveNewUser, hdup, roleIsValid, resolveRole, preSaveHashPassword]
    · simp [role]
  · refine ⟨{ id := nextId, name := name, email := email,
              password := .digest salt (.plain password), role := "user",
              passwordModified := false }, ?_, rfl⟩
    simp [register, saveNewUser, hdup, roleIsValid, resolveRole, preSaveHashPassword]

/-- C10 witness: a fresh store accepts an admin self-registration. -/
theorem c10_witness :
    (∃ u, register 7 [] 1 "Eve" "eve@x.com" "pw" (some "admin")
        = (.registered 201, [] ++ [u]) ∧
      u.role = "admin" ∧
      role "admin" ⟨u.id, u.role⟩ = .proceed) ∧
    (∃ u, register 7 [] 1 "Eve" "eve@x.com" "pw" none
        = (.registered 201, [] ++ [u]) ∧
      u.role = "user") :=
  c10_unauthenticated_admin_registration 7 [] 1 "Eve" "eve@x.com" "pw" (by decide)

end CoffeeShop
